import Mathlib

/-!
Shallow embedding of the codimension flow-diagram layout engine
(`flowui/auxitems.py` and `flowui/scopeitems.py`) and proofs about the
rendering/drawing behaviour of its cells.

Sizes and coordinates are modelled as rationals (the Python code mixes
ints and floats and divides heights by 2); text metrics (font bounding
boxes) are modelled as function-valued fields of the settings object.
-/

namespace Codimension

/-- The read-only settings/theme object shared by all cells.  Only the
fields the embedded code reads are modelled.  Font metrics
(`badgeFontMetrics.boundingRect`, `monoFontMetrics.boundingRect`,
`getBoundingRect`) are modelled as width/height measuring functions. -/
structure Settings where
  mainLine : ℚ
  hCellPadding : ℚ
  vCellPadding : ℚ
  openGroupHSpacer : ℚ
  hSpacer : ℚ
  vSpacer : ℚ
  scopeRectRadius : ℚ
  hHeaderPadding : ℚ
  vHeaderPadding : ℚ
  hTextPadding : ℚ
  vTextPadding : ℚ
  hHiddenTextPadding : ℚ
  vHiddenTextPadding : ℚ
  minWidth : ℚ
  boxLineWidth : ℚ
  selectPenWidth : ℚ
  badgeHSpacing : ℚ
  badgeVSpacing : ℚ
  hidecomments : Bool
  hidedocstrings : Bool
  hiddenCommentText : String
  monoTextWidth : String → ℚ
  monoTextHeight : String → ℚ
  badgeTextWidth : String → ℚ
  badgeTextHeight : String → ℚ

/-- Connection anchor points of a `ConnectorCell` bounding box. -/
inductive Anchor where
  | NORTH
  | SOUTH
  | WEST
  | EAST
  | CENTER
deriving DecidableEq, Repr

/-- The connector routing-correction sub-kind (GENERIC / TOP_IF / BOTTOM_IF). -/
inductive ConnSubKind where
  | GENERIC
  | TOP_IF
  | BOTTOM_IF
deriving DecidableEq, Repr

/-- A sibling cell in the same row, as seen by `ConnectorCell.__getY`
while scanning leftward: only its spacer/scoped/connector classification
and its `minHeight` are read. -/
structure RowCell where
  isSpacer : Bool
  isScoped : Bool
  isConnector : Bool
  minHeight : ℚ
deriving DecidableEq

/-- The cell directly above/below a TOP_IF / BOTTOM_IF connector, as read
by the anchor-resolution code: whether it is a nested canvas (VCANVAS) and
its `maxGlobalOpenGroupDepth`. -/
structure VCanvasNeighbor where
  isVCanvas : Bool
  maxGlobalOpenGroupDepth : ℚ
deriving DecidableEq

/-- State of a `ConnectorCell`: its connection pairs, sub-kind, `hShift`,
geometry fields, the row cells to its left (nearest first) and the
canvas neighbours above/below used by the IF corrections. -/
structure ConnectorCell where
  connections : List (Anchor × Anchor)
  subKind : ConnSubKind
  hShift : ℚ
  baseX : ℚ
  baseY : ℚ
  width : ℚ
  height : ℚ
  minWidth : ℚ
  minHeight : ℚ
  leftCells : List RowCell
  cellAbove : Option VCanvasNeighbor
  cellBelow : Option VCanvasNeighbor
deriving DecidableEq

/-- `ConnectorCell.__hasVertical`: some connection pair contains NORTH or
SOUTH (Python `NORTH in conn or SOUTH in conn`). -/
def ConnectorCell.hasVertical (c : ConnectorCell) : Bool :=
  c.connections.any fun p =>
    decide (p.1 = Anchor.NORTH ∨ p.2 = Anchor.NORTH ∨
            p.1 = Anchor.SOUTH ∨ p.2 = Anchor.SOUTH)

/-- `ConnectorCell.__hasHorizontal`: some connection pair contains EAST or
WEST. -/
def ConnectorCell.hasHorizontal (c : ConnectorCell) : Bool :=
  c.connections.any fun p =>
    decide (p.1 = Anchor.EAST ∨ p.2 = Anchor.EAST ∨
            p.1 = Anchor.WEST ∨ p.2 = Anchor.WEST)

/-- `ConnectorCell.render`: computes `minWidth`/`minHeight` from the
connection pairs, copies them to `width`/`height` and returns the pair. -/
def ConnectorCell.render (s : Settings) (c : ConnectorCell) :
    ConnectorCell × (ℚ × ℚ) :=
  let minW : ℚ :=
    if c.hasVertical then
      s.mainLine + s.hCellPadding + c.hShift * 2 * s.openGroupHSpacer
    else 0
  let minH : ℚ := if c.hasHorizontal then 2 * s.vCellPadding else 0
  ({ c with minWidth := minW, minHeight := minH,
            width := minW, height := minH },
   (minW, minH))

/-- `ConnectorCell.__getY` leftward row scan: skip spacers, stop with the
cell's own `height / 2` at a scoped item (or when the row is exhausted),
skip other connectors, and otherwise use half the sibling's `minHeight`. -/
def scanRowY (own : ℚ) : List RowCell → ℚ
  | [] => own / 2
  | c :: rest =>
    if c.isSpacer then scanRowY own rest
    else if c.isScoped then own / 2
    else if c.isConnector then scanRowY own rest
    else c.minHeight / 2

/-- `ConnectorCell.__getY` for a given connector cell. -/
def ConnectorCell.getY (c : ConnectorCell) : ℚ :=
  scanRowY c.height c.leftCells

/-- The extra X shift contributed by a VCANVAS neighbour:
`maxGlobalOpenGroupDepth * 2 * openGroupHSpacer`, 0 when the neighbour is
absent or is not a nested canvas. -/
def neighborDepthAdj (s : Settings) (n : Option VCanvasNeighbor) : ℚ :=
  match n with
  | some nb =>
    if nb.isVCanvas then nb.maxGlobalOpenGroupDepth * 2 * s.openGroupHSpacer
    else 0
  | none => 0

/-- `ConnectorCell.__getXY` (with `__getNorthXY`/`__getSouthXY` inlined):
resolves an anchor to absolute coordinates, applying the `hShift`
correction for GENERIC connectors and the nested-canvas depth correction
for TOP_IF / BOTTOM_IF ones. -/
def ConnectorCell.getXY (s : Settings) (c : ConnectorCell) (loc : Anchor) :
    ℚ × ℚ :=
  let hSh : ℚ := c.hShift * 2 * s.openGroupHSpacer
  let baseX : ℚ :=
    if c.subKind = ConnSubKind.TOP_IF ∨ c.subKind = ConnSubKind.BOTTOM_IF
    then c.baseX else c.baseX + hSh
  match loc with
  | Anchor.NORTH =>
    let bx := if c.subKind = ConnSubKind.BOTTOM_IF
              then baseX + neighborDepthAdj s c.cellAbove else baseX
    (bx + s.mainLine, c.baseY)
  | Anchor.SOUTH =>
    let bx := if c.subKind = ConnSubKind.TOP_IF
              then baseX + neighborDepthAdj s c.cellBelow else baseX
    (bx + s.mainLine, c.baseY + c.height)
  | Anchor.WEST => (baseX, c.baseY + c.getY)
  | Anchor.EAST => (baseX + c.width - hSh, c.baseY + c.getY)
  | Anchor.CENTER =>
    let bx :=
      if c.subKind = ConnSubKind.TOP_IF
      then baseX + neighborDepthAdj s c.cellBelow
      else if c.subKind = ConnSubKind.BOTTOM_IF
      then baseX + neighborDepthAdj s c.cellAbove
      else baseX
    (bx + s.mainLine, c.baseY + c.getY)

/-- `ConnectorCell.__angled`: true when one endpoint is NORTH/SOUTH and
the other is WEST/EAST. -/
def ConnectorCell.angled (b e : Anchor) : Bool :=
  if (b = Anchor.NORTH ∨ b = Anchor.SOUTH) ∧
     (e = Anchor.WEST ∨ e = Anchor.EAST) then true
  else decide ((e = Anchor.NORTH ∨ e = Anchor.SOUTH) ∧
               (b = Anchor.WEST ∨ b = Anchor.EAST))

/-- A straight line segment of the painter path built by
`ConnectorCell.draw`. -/
structure Segment where
  p1 : ℚ × ℚ
  p2 : ℚ × ℚ
deriving DecidableEq

/-- The painter-path segments emitted by `ConnectorCell.draw`: an angled
pair becomes two segments routed through the CENTER anchor, a non-angled
pair a single segment. -/
def ConnectorCell.drawSegments (s : Settings) (c : ConnectorCell) :
    List Segment :=
  c.connections.flatMap fun conn =>
    let st := c.getXY s conn.1
    let en := c.getXY s conn.2
    if ConnectorCell.angled conn.1 conn.2 then
      let ce := c.getXY s Anchor.CENTER
      [⟨st, ce⟩, ⟨ce, en⟩]
    else [⟨st, en⟩]

/-- `ConnectorCell.draw`: records the base position, builds the painter
path from the connections and adds the item to the scene.  The method has
no failure path; the `Except` result records that no error can be
raised. -/
def ConnectorCell.draw (s : Settings) (c : ConnectorCell)
    (baseX baseY : ℚ) : Except String (ConnectorCell × List Segment) :=
  let c2 := { c with baseX := baseX, baseY := baseY }
  Except.ok (c2, ConnectorCell.drawSegments s c2)

/-- Scope cell kinds (`CellElement.FILE_SCOPE` ... `FINALLY_SCOPE`). -/
inductive ScopeKind where
  | FILE_SCOPE
  | FUNC_SCOPE
  | CLASS_SCOPE
  | FOR_SCOPE
  | WHILE_SCOPE
  | TRY_SCOPE
  | WITH_SCOPE
  | DECOR_SCOPE
  | ELSE_SCOPE
  | EXCEPT_SCOPE
  | FINALLY_SCOPE
deriving DecidableEq, Repr

/-- Scope sub-kinds (`ScopeCellElement.TOP_LEFT` ... `DOCSTRING`). -/
inductive ScopeSubKind where
  | TOP_LEFT
  | DECLARATION
  | COMMENT
  | DOCSTRING
deriving DecidableEq, Repr

/-- The statement an else scope is bound to (`ElseScopeCell.FOR_STATEMENT`
/ `WHILE_STATEMENT` / `TRY_STATEMENT`). -/
inductive ElseStatement where
  | FOR_STATEMENT
  | WHILE_STATEMENT
  | TRY_STATEMENT
deriving DecidableEq, Repr

/-- A scope badge.  `scopeKind` is the owning scope cell's kind and
`exceptClauseAbsent` models `ref.ref.clause is None` for EXCEPT scopes;
width/height come from the badge font metrics plus the badge spacing, as
in `BadgeItem.__init__`. -/
structure BadgeItem where
  scopeKind : ScopeKind
  exceptClauseAbsent : Bool
  text : String
  width : ℚ
  height : ℚ

/-- `BadgeItem.__init__`: measures the text with the badge font metrics
and pads it with the badge spacing on both axes. -/
def mkBadgeItem (s : Settings) (k : ScopeKind) (clauseAbsent : Bool)
    (text : String) : BadgeItem :=
  { scopeKind := k
    exceptClauseAbsent := clauseAbsent
    text := text
    width := s.badgeTextWidth text + 2 * s.badgeHSpacing
    height := s.badgeTextHeight text + 2 * s.badgeVSpacing }

/-- `BadgeItem.withinHeader`: true for ELSE/FINALLY/TRY scopes and for an
EXCEPT scope whose clause is absent. -/
def BadgeItem.withinHeader (b : BadgeItem) : Bool :=
  if b.scopeKind = ScopeKind.ELSE_SCOPE ∨
     b.scopeKind = ScopeKind.FINALLY_SCOPE ∨
     b.scopeKind = ScopeKind.TRY_SCOPE then true
  else if b.scopeKind = ScopeKind.EXCEPT_SCOPE then b.exceptClauseAbsent
  else false

/-- The badge label each scope kind's `render()` attaches to its TOP_LEFT
cell (`BadgeItem(self, "module")`, `"def"`, `"class"`, ...). -/
def badgeTextOf : ScopeKind → String
  | ScopeKind.FILE_SCOPE => "module"
  | ScopeKind.FUNC_SCOPE => "def"
  | ScopeKind.CLASS_SCOPE => "class"
  | ScopeKind.FOR_SCOPE => "for"
  | ScopeKind.WHILE_SCOPE => "while"
  | ScopeKind.TRY_SCOPE => "try"
  | ScopeKind.WITH_SCOPE => "with"
  | ScopeKind.DECOR_SCOPE => " @ "
  | ScopeKind.ELSE_SCOPE => "else"
  | ScopeKind.EXCEPT_SCOPE => "except"
  | ScopeKind.FINALLY_SCOPE => "finally"

/-- Inputs of `ScopeCellElement.__renderDeclaration`: the scope kind, the
badge of the TOP_LEFT neighbour cell, the rendered header text and the
side-comment presence flags (`hasattr(self.ref, "sideComment")` and its
truthiness). -/
structure DeclInput where
  kind : ScopeKind
  badgeItem : Option BadgeItem
  headerText : String
  hasSideCommentAttr : Bool
  sideCommentNonEmpty : Bool

/-- The width adjustment `__renderDeclaration` adds for the side comment:
`hCellPadding` when a side comment is present, else `hHeaderPadding`. -/
def declCommentWidthAdj (s : Settings) (d : DeclInput) : ℚ :=
  if d.hasSideCommentAttr then
    if d.sideCommentNonEmpty then s.hCellPadding else s.hHeaderPadding
  else s.hHeaderPadding

/-- The height adjustment `__renderDeclaration` adds for the side
comment: `2 * vTextPadding` when present, `vTextPadding` when the
attribute exists but is empty, nothing otherwise. -/
def declCommentHeightAdj (s : Settings) (d : DeclInput) : ℚ :=
  if d.hasSideCommentAttr then
    if d.sideCommentNonEmpty then 2 * s.vTextPadding else s.vTextPadding
  else 0

/-- `ScopeCellElement.__renderDeclaration`: measures the header text,
widens to the badge when the badge is wider, overwrites the width with
the badge-driven value when the badge is within the header, applies the
side-comment adjustment and floors the width at `settings.minWidth`.
Returns `(minWidth, minHeight)`. -/
def renderDeclaration (s : Settings) (d : DeclInput) : ℚ × ℚ :=
  let headerW := s.monoTextWidth d.headerText
  let headerH := s.monoTextHeight d.headerText
  let minHeight0 := headerH + 2 * s.vHeaderPadding - s.scopeRectRadius
  let w := match d.badgeItem with
    | some b => max headerW b.width
    | none => headerW
  let minWidth0 := w + s.hHeaderPadding - s.scopeRectRadius
  let minWidth1 := match d.badgeItem with
    | some b =>
      if b.withinHeader then b.width + s.hHeaderPadding - s.scopeRectRadius
      else minWidth0
    | none => minWidth0
  let minWidth2 := minWidth1 + declCommentWidthAdj s d
  let minHeight1 := minHeight0 + declCommentHeightAdj s d
  (max minWidth2 s.minWidth, minHeight1)

/-- `ScopeCellElement.__renderComment`: measures the side comment text
and pads it with the hidden or the shown text-padding profile depending
on `settings.hidecomments`.  Returns `(minWidth, minHeight)`. -/
def renderComment (s : Settings) (text : String) : ℚ × ℚ :=
  let w := s.monoTextWidth text
  let h := s.monoTextHeight text
  if s.hidecomments then
    (s.hCellPadding + s.hHiddenTextPadding + w + s.hHiddenTextPadding +
       s.hHeaderPadding - s.scopeRectRadius,
     h + 2 * (s.vHeaderPadding + s.vHiddenTextPadding) - s.scopeRectRadius)
  else
    (s.hCellPadding + s.hTextPadding + w + s.hTextPadding +
       s.hHeaderPadding - s.scopeRectRadius,
     h + 2 * (s.vHeaderPadding + s.vTextPadding) - s.scopeRectRadius)

/-- A source fragment handed to the core by the parser (external input):
begin/end lines and the display text. -/
structure Fragment where
  beginLine : Int
  endLine : Int
  displayValue : String
deriving DecidableEq

/-- `getLineRange()` of a parser fragment: `[beginLine, endLine]`. -/
def Fragment.getLineRange (f : Fragment) : List Int :=
  [f.beginLine, f.endLine]

/-- The side-comment source data a scope cell's `_getSideComment` reads:
the comment fragment, the anchor line of the scope heading
(name/iteration/condition/items/clause begin line), the last heading line
(arguments/baseClasses/clause end, already resolved through the
`is None` fallbacks), and the two flags selecting the simple variant
(try/else/finally, and except with an absent clause). -/
structure SideCommentSrc where
  fragment : Fragment
  anchorBegin : Int
  lastLine : Int
  simple : Bool
  exceptNoClause : Bool
deriving DecidableEq

/-- A string of `n` newline characters (Python `'\n' * n`). -/
def newlines (n : Nat) : String :=
  String.mk (List.replicate n (Char.ofNat 10))

/-- The side-comment text `_getSideComment` computes before any caching:
the hidden placeholder when comments are hidden, the raw display value
for the simple scope kinds, and the display value padded with leading and
trailing blank lines for the others. -/
def computeSideCommentText (s : Settings) (src : SideCommentSrc) : String :=
  if s.hidecomments then s.hiddenCommentText
  else if src.simple || src.exceptNoClause then src.fragment.displayValue
  else
    let before := (src.fragment.beginLine - src.anchorBegin).toNat
    let after := src.lastLine - src.fragment.endLine
    let base := newlines before ++ src.fragment.displayValue
    if 0 < after then base ++ newlines after.toNat else base

/-- Python `html.escape` of a single character (quote=True default). -/
def htmlEscapeChar (c : Char) : String :=
  if c = Char.ofNat 38 then "&amp;"
  else if c = Char.ofNat 60 then "&lt;"
  else if c = Char.ofNat 62 then "&gt;"
  else if c = Char.ofNat 34 then "&quot;"
  else if c = Char.ofNat 39 then "&#x27;"
  else String.mk [c]

/-- Python `html.escape`. -/
def htmlEscape (t : String) : String :=
  String.join (t.toList.map htmlEscapeChar)

/-- The tooltip `_getSideComment` records when comments are hidden:
`'<pre>' + escape(text) + '</pre>'` of the comment text built before it
is replaced by the placeholder (with `hidecomments` the leading blank
lines count is forced to 0, so that text is the raw display value). -/
def commentToolTip (displayValue : String) : String :=
  "<pre>" ++ htmlEscape displayValue ++ "</pre>"

/-- State of a scope cell sub-element relevant to `renderCell`: kind and
sub-kind, its own badge (set by the concrete `render()` for TOP_LEFT),
the TOP_LEFT neighbour's badge read by DECLARATION rendering, the header
text, side-comment data with its cache, docstring data with its cache,
the doc badge, the recorded tooltip and the geometry fields. -/
structure ScopeCellState where
  kind : ScopeKind
  subKind : ScopeSubKind
  exceptClauseAbsent : Bool
  badgeItem : Option BadgeItem
  neighborBadge : Option BadgeItem
  headerText : String
  hasSideCommentAttr : Bool
  sideCommentNonEmpty : Bool
  sideCommentSrc : SideCommentSrc
  cachedSideComment : Option String
  docstringValue : String
  cachedDocstringText : Option String
  docBadge : Option BadgeItem
  toolTip : Option String
  minWidth : ℚ
  minHeight : ℚ
  width : ℚ
  height : ℚ

/-- The `__renderDeclaration` inputs of a scope cell state: the badge it
reads is the TOP_LEFT neighbour's. -/
def ScopeCellState.declInput (st : ScopeCellState) : DeclInput :=
  { kind := st.kind
    badgeItem := st.neighborBadge
    headerText := st.headerText
    hasSideCommentAttr := st.hasSideCommentAttr
    sideCommentNonEmpty := st.sideCommentNonEmpty }

/-- `ScopeCellElement.getDocstringText` with its cache: on a cache miss
the display value is taken; when docstrings are hidden the text is moved
into a tooltip and replaced by the empty string. -/
def getDocstringText (s : Settings) (cache : Option String)
    (value : String) : String × Option String :=
  match cache with
  | some t => (t, some t)
  | none => if s.hidedocstrings then ("", some "") else (value, some value)

/-- `ScopeCellElement.renderCell`: dispatches on the sub-kind, computes
`minWidth`/`minHeight`, copies them into `width`/`height` and returns
`(width, height)`; COMMENT and DOCSTRING cache their texts on the way. -/
def scopeRenderCell (s : Settings) (st : ScopeCellState) :
    ScopeCellState × (ℚ × ℚ) :=
  match st.subKind with
  | ScopeSubKind.TOP_LEFT =>
    let wh := (s.scopeRectRadius + s.hCellPadding,
               s.scopeRectRadius + s.vCellPadding)
    ({ st with minWidth := wh.1, minHeight := wh.2,
               width := wh.1, height := wh.2 }, wh)
  | ScopeSubKind.DECLARATION =>
    let wh := renderDeclaration s st.declInput
    ({ st with minWidth := wh.1, minHeight := wh.2,
               width := wh.1, height := wh.2 }, wh)
  | ScopeSubKind.COMMENT =>
    match st.cachedSideComment with
    | some t =>
      let wh := renderComment s t
      ({ st with minWidth := wh.1, minHeight := wh.2,
                 width := wh.1, height := wh.2 }, wh)
    | none =>
      let t := computeSideCommentText s st.sideCommentSrc
      let tip := if s.hidecomments
        then some (commentToolTip st.sideCommentSrc.fragment.displayValue)
        else st.toolTip
      let wh := renderComment s t
      ({ st with cachedSideComment := some t, toolTip := tip,
                 minWidth := wh.1, minHeight := wh.2,
                 width := wh.1, height := wh.2 }, wh)
  | ScopeSubKind.DOCSTRING =>
    let tc := getDocstringText s st.cachedDocstringText st.docstringValue
    if s.hidedocstrings then
      let badge := mkBadgeItem s st.kind st.exceptClauseAbsent "doc"
      let wh := (2 * (s.hHeaderPadding - s.scopeRectRadius),
                 badge.height + 2 * (s.selectPenWidth - 1))
      ({ st with cachedDocstringText := tc.2, docBadge := some badge,
                 minWidth := wh.1, minHeight := wh.2,
                 width := wh.1, height := wh.2 }, wh)
    else
      let wh := (s.monoTextWidth tc.1 +
                   2 * (s.hHeaderPadding - s.scopeRectRadius),
                 s.monoTextHeight tc.1 + 2 * s.vHeaderPadding)
      ({ st with cachedDocstringText := tc.2,
                 minWidth := wh.1, minHeight := wh.2,
                 width := wh.1, height := wh.2 }, wh)

/-- The concrete scope cells' `render()`: for TOP_LEFT a fresh badge with
the kind's label is attached, then `renderCell` runs. -/
def scopeRender (s : Settings) (st : ScopeCellState) :
    ScopeCellState × (ℚ × ℚ) :=
  let badge := mkBadgeItem s st.kind st.exceptClauseAbsent
    (badgeTextOf st.kind)
  let st1 := if st.subKind = ScopeSubKind.TOP_LEFT
    then { st with badgeItem := some badge }
    else st
  scopeRenderCell s st1

/-- `FunctionScopeCell.getLineRange`: DOCSTRING narrows to the docstring
body's range, COMMENT to the side comment's range, everything else
delegates to the `CellElement` default (supplied here as `baseRange`
since `cellelement.py` is outside the embedded sources). -/
def functionScopeGetLineRange (st : ScopeCellState)
    (docstringRange baseRange : List Int) : List Int :=
  match st.subKind with
  | ScopeSubKind.DOCSTRING => docstringRange
  | ScopeSubKind.COMMENT => Fragment.getLineRange st.sideCommentSrc.fragment
  | _ => baseRange

/-- State of a `SpacerCell`: optional construction-time width/height,
sizes filled in by `render` and the base position recorded by `draw`. -/
structure SpacerState where
  width : Option ℚ
  height : Option ℚ
  minWidth : Option ℚ
  minHeight : Option ℚ
  baseX : Option ℚ
  baseY : Option ℚ
deriving DecidableEq

/-- `SpacerCell.render`: defaults missing sizes to the settings spacers,
records them as the minimum sizes and returns `(width, height)`. -/
def SpacerCell.render (s : Settings) (st : SpacerState) :
    SpacerState × (ℚ × ℚ) :=
  let w := st.width.getD s.hSpacer
  let h := st.height.getD s.vSpacer
  ({ st with width := some w, height := some h,
             minWidth := some w, minHeight := some h }, (w, h))

/-- `SpacerCell.draw`: records the base position and emits nothing.  The
method has no failure path; the `Except` result records that no error can
be raised. -/
def SpacerCell.draw (st : SpacerState) (baseX baseY : ℚ) :
    Except String SpacerState :=
  Except.ok { st with baseX := some baseX, baseY := some baseY }

/-- `ScopeCellElement.getTopLeftItem`: for a DECLARATION sub-kind returns
the canvas cell at `(column - 1, row - 1)`; for any other sub-kind raises
`Exception("Logical error: ...")`. -/
def getTopLeftItem (cells : List (List Nat)) (column row : Nat)
    (subKind : ScopeSubKind) : Except String Nat :=
  if subKind = ScopeSubKind.DECLARATION then
    match cells.get? (row - 1) with
    | some r =>
      match r.get? (column - 1) with
      | some c => Except.ok c
      | none => Except.error "IndexError"
    | none => Except.error "IndexError"
  else
    Except.error ("Logical error: the getTopLeftItem() is designed " ++
                  "to be called for the DECLARATION only")

/-- The parent-canvas cell to the left of a scope's canvas, as read by
`__followLoop` and by the horizontal-connector branch of `draw`:
whether it is a nested canvas, the kind of that canvas's top-left inner
cell (when it exists), and its geometry. -/
structure LeftNeighbor where
  isVCanvas : Bool
  innerTopLeftKind : Option ScopeKind
  baseX : ℚ
  minWidth : ℚ
deriving DecidableEq

/-- The TOP_LEFT scope cell data read by the connector-creation part of
`ScopeCellElement.draw`: the scope kind, the bound statement for else
scopes, the left neighbour in the parent canvas, and whether the parent
cell above exists and needs a connector. -/
structure TopLeftCell where
  kind : ScopeKind
  statement : ElseStatement
  leftNeighbor : Option LeftNeighbor
  hasTopNeighbor : Bool
  topNeedConnector : Bool
deriving DecidableEq

/-- `ScopeCellElement.__needConnector`: true for the
for/decorator/while/function/class/with/finally/try scope kinds, and for
an else scope exactly when it is bound to a try statement. -/
def needConnector (c : TopLeftCell) : Bool :=
  if c.kind = ScopeKind.FOR_SCOPE ∨ c.kind = ScopeKind.DECOR_SCOPE ∨
     c.kind = ScopeKind.WHILE_SCOPE ∨ c.kind = ScopeKind.FUNC_SCOPE ∨
     c.kind = ScopeKind.CLASS_SCOPE ∨ c.kind = ScopeKind.WITH_SCOPE ∨
     c.kind = ScopeKind.FINALLY_SCOPE ∨ c.kind = ScopeKind.TRY_SCOPE
  then true
  else if c.kind = ScopeKind.ELSE_SCOPE
  then decide (c.statement = ElseStatement.TRY_STATEMENT)
  else false

/-- `ScopeCellElement.__followLoop`: the cell to the left in the parent
canvas is a nested canvas whose `cells[0][0]` is a FOR or WHILE scope;
any lookup failure yields false. -/
def followLoop (c : TopLeftCell) : Bool :=
  match c.leftNeighbor with
  | none => false
  | some ln =>
    if ln.isVCanvas then
      match ln.innerTopLeftKind with
      | some k => decide (k = ScopeKind.FOR_SCOPE ∨ k = ScopeKind.WHILE_SCOPE)
      | none => false
    else false

/-- `ScopeCellElement.__needTopHalfConnector`: for else/except scopes,
whether the parent cell above exists and itself needs a connector. -/
def needTopHalfConnector (c : TopLeftCell) : Bool :=
  if c.kind = ScopeKind.ELSE_SCOPE ∨ c.kind = ScopeKind.EXCEPT_SCOPE
  then c.hasTopNeighbor && c.topNeedConnector
  else false

/-- Which of the three connector-creation paths of the TOP_LEFT `draw`
produced a connector. -/
inductive ConnRole where
  | vertical
  | topHalf
  | horizontal
deriving DecidableEq, Repr

/-- A connector created by the TOP_LEFT part of `ScopeCellElement.draw`:
its creation path, whether its pen style is `Qt.DotLine`, and its two
endpoints. -/
structure DrawnConn where
  role : ConnRole
  dotted : Bool
  x1 : ℚ
  y1 : ℚ
  x2 : ℚ
  y2 : ℚ
deriving DecidableEq

/-- The connectors created by the TOP_LEFT branch of
`ScopeCellElement.draw`: a full-height vertical connector when
`__needConnector`, a half-height one when `__needTopHalfConnector`, and —
only when no vertical connector was created — a dotted horizontal
connector from the left neighbour's right edge to this scope's left edge
for an except scope or an else scope following a loop. -/
def topLeftDrawConnectors (s : Settings) (c : TopLeftCell)
    (baseX baseY canvasHeight : ℚ) : List DrawnConn :=
  let vert : List DrawnConn :=
    if needConnector c then
      [{ role := ConnRole.vertical, dotted := false,
         x1 := baseX + s.mainLine, y1 := baseY,
         x2 := baseX + s.mainLine, y2 := baseY + canvasHeight }]
    else []
  let half : List DrawnConn :=
    if needTopHalfConnector c then
      [{ role := ConnRole.topHalf, dotted := false,
         x1 := baseX + s.mainLine, y1 := baseY,
         x2 := baseX + s.mainLine, y2 := baseY + canvasHeight / 2 }]
    else []
  let horiz : List DrawnConn :=
    if needConnector c then []
    else if c.kind = ScopeKind.EXCEPT_SCOPE ∨
            (c.kind = ScopeKind.ELSE_SCOPE ∧ followLoop c = true) then
      match c.leftNeighbor with
      | some ln =>
        [{ role := ConnRole.horizontal, dotted := true,
           x1 := ln.baseX + ln.minWidth - s.hCellPadding + s.boxLineWidth,
           y1 := baseY + 2 * s.vCellPadding,
           x2 := baseX + s.hCellPadding - s.boxLineWidth,
           y2 := baseY + 2 * s.vCellPadding }]
      | none => []
    else []
  vert ++ half ++ horiz

/-- A concrete settings value used to instantiate the theorems below on
explicit inputs. -/
def sampleSettings : Settings :=
  { mainLine := 10
    hCellPadding := 5
    vCellPadding := 5
    openGroupHSpacer := 2
    hSpacer := 4
    vSpacer := 4
    scopeRectRadius := 6
    hHeaderPadding := 7
    vHeaderPadding := 7
    hTextPadding := 8
    vTextPadding := 8
    hHiddenTextPadding := 3
    vHiddenTextPadding := 3
    minWidth := 100
    boxLineWidth := 1
    selectPenWidth := 3
    badgeHSpacing := 2
    badgeVSpacing := 2
    hidecomments := true
    hidedocstrings := false
    hiddenCommentText := "<comment>"
    monoTextWidth := fun t => (t.length : ℚ) * 7
    monoTextHeight := fun _ => 12
    badgeTextWidth := fun t => (t.length : ℚ) * 6
    badgeTextHeight := fun _ => 10 }

/-- A concrete connector with a single (NORTH, SOUTH) pair. -/
def sampleConnector : ConnectorCell :=
  { connections := [(Anchor.NORTH, Anchor.SOUTH)]
    subKind := ConnSubKind.GENERIC
    hShift := 1
    baseX := 0
    baseY := 0
    width := 19
    height := 40
    minWidth := 0
    minHeight := 0
    leftCells := []
    cellAbove := none
    cellBelow := none }

/-- A concrete connector with a single angled (NORTH, EAST) pair. -/
def sampleAngledConnector : ConnectorCell :=
  { connections := [(Anchor.NORTH, Anchor.EAST)]
    subKind := ConnSubKind.GENERIC
    hShift := 0
    baseX := 3
    baseY := 4
    width := 19
    height := 10
    minWidth := 0
    minHeight := 0
    leftCells := []
    cellAbove := none
    cellBelow := none }

/-- The "class" badge built with the sample settings: its width is
5 * 6 + 2 * 2 = 34, wider than a 3-character header text (21). -/
def sampleClassBadge : BadgeItem :=
  mkBadgeItem sampleSettings ScopeKind.CLASS_SCOPE false "class"

/-- A concrete Class DECLARATION cell state whose badge is wider than
the header text. -/
def sampleClassDeclState : ScopeCellState :=
  { kind := ScopeKind.CLASS_SCOPE
    subKind := ScopeSubKind.DECLARATION
    exceptClauseAbsent := false
    badgeItem := none
    neighborBadge := some sampleClassBadge
    headerText := "Foo"
    hasSideCommentAttr := true
    sideCommentNonEmpty := false
    sideCommentSrc := { fragment := { beginLine := 0, endLine := 0,
                                      displayValue := "" }
                        anchorBegin := 0
                        lastLine := 0
                        simple := false
                        exceptNoClause := false }
    cachedSideComment := none
    docstringValue := ""
    cachedDocstringText := none
    docBadge := none
    toolTip := none
    minWidth := 0
    minHeight := 0
    width := 0
    height := 0 }

/-- The "else" badge built with the sample settings. -/
def sampleElseBadge : BadgeItem :=
  mkBadgeItem sampleSettings ScopeKind.ELSE_SCOPE false "else"

/-- A concrete Else DECLARATION input with a header text much wider than
the badge. -/
def sampleElseDecl : DeclInput :=
  { kind := ScopeKind.ELSE_SCOPE
    badgeItem := some sampleElseBadge
    headerText := "a very long header text"
    hasSideCommentAttr := false
    sideCommentNonEmpty := false }

/-- A concrete side comment spanning lines 10 to 12. -/
def sampleFragment : Fragment :=
  { beginLine := 10, endLine := 12, displayValue := "# sets things up" }

/-- Side-comment source data of a function scope whose heading starts at
line 10 and whose argument list ends at line 12. -/
def sampleCommentSrc : SideCommentSrc :=
  { fragment := sampleFragment
    anchorBegin := 10
    lastLine := 12
    simple := false
    exceptNoClause := false }

/-- A concrete function scope COMMENT cell state with an empty cache. -/
def sampleCommentState : ScopeCellState :=
  { kind := ScopeKind.FUNC_SCOPE
    subKind := ScopeSubKind.COMMENT
    exceptClauseAbsent := false
    badgeItem := none
    neighborBadge := none
    headerText := ""
    hasSideCommentAttr := true
    sideCommentNonEmpty := true
    sideCommentSrc := sampleCommentSrc
    cachedSideComment := none
    docstringValue := ""
    cachedDocstringText := none
    docBadge := none
    toolTip := none
    minWidth := 0
    minHeight := 0
    width := 0
    height := 0 }

/-- A left neighbour that is a nested canvas holding a For scope. -/
def sampleLeftNeighbor : LeftNeighbor :=
  { isVCanvas := true
    innerTopLeftKind := some ScopeKind.FOR_SCOPE
    baseX := 50
    minWidth := 120 }

/-- A concrete Else TOP_LEFT cell bound to a for statement whose left
neighbour is a nested canvas holding a For scope. -/
def sampleElseCell : TopLeftCell :=
  { kind := ScopeKind.ELSE_SCOPE
    statement := ElseStatement.FOR_STATEMENT
    leftNeighbor := some sampleLeftNeighbor
    hasTopNeighbor := false
    topNeedConnector := false }

/-! ## Theorems -/

/-- `hasVertical` checks exactly whether some pair contains NORTH or
SOUTH. -/
theorem hasVertical_iff (c : ConnectorCell) :
    c.hasVertical = true ↔
      ∃ p ∈ c.connections,
        p.1 = Anchor.NORTH ∨ p.2 = Anchor.NORTH ∨
        p.1 = Anchor.SOUTH ∨ p.2 = Anchor.SOUTH := by
  simp [ConnectorCell.hasVertical, List.any_eq_true]

/-- `hasHorizontal` checks exactly whether some pair contains EAST or
WEST. -/
theorem hasHorizontal_iff (c : ConnectorCell) :
    c.hasHorizontal = true ↔
      ∃ p ∈ c.connections,
        p.1 = Anchor.EAST ∨ p.2 = Anchor.EAST ∨
        p.1 = Anchor.WEST ∨ p.2 = Anchor.WEST := by
  simp [ConnectorCell.hasHorizontal, List.any_eq_true]

/-- C1: after `ConnectorCell.render`, `minWidth` is positive — equal to
`mainLine + hCellPadding + hShift * 2 * openGroupHSpacer` — exactly when
some connection pair contains NORTH or SOUTH and is 0 otherwise, and
`minHeight` is positive — equal to `2 * vCellPadding` — exactly when some
pair contains EAST or WEST and is 0 otherwise. -/
theorem connector_render_reservation (s : Settings) (c : ConnectorCell)
    (hml : 0 < s.mainLine) (hcp : 0 ≤ s.hCellPadding) (hsh : 0 ≤ c.hShift)
    (hog : 0 ≤ s.openGroupHSpacer) (hvp : 0 < s.vCellPadding) :
    (0 < ((ConnectorCell.render s c).2).1 ↔
       ∃ p ∈ c.connections,
         p.1 = Anchor.NORTH ∨ p.2 = Anchor.NORTH ∨
         p.1 = Anchor.SOUTH ∨ p.2 = Anchor.SOUTH) ∧
    ((∃ p ∈ c.connections,
        p.1 = Anchor.NORTH ∨ p.2 = Anchor.NORTH ∨
        p.1 = Anchor.SOUTH ∨ p.2 = Anchor.SOUTH) →
       ((ConnectorCell.render s c).2).1 =
         s.mainLine + s.hCellPadding + c.hShift * 2 * s.openGroupHSpacer) ∧
    (¬ (∃ p ∈ c.connections,
          p.1 = Anchor.NORTH ∨ p.2 = Anchor.NORTH ∨
          p.1 = Anchor.SOUTH ∨ p.2 = Anchor.SOUTH) →
       ((ConnectorCell.render s c).2).1 = 0) ∧
    (0 < ((ConnectorCell.render s c).2).2 ↔
       ∃ p ∈ c.connections,
         p.1 = Anchor.EAST ∨ p.2 = Anchor.EAST ∨
         p.1 = Anchor.WEST ∨ p.2 = Anchor.WEST) ∧
    ((∃ p ∈ c.connections,
        p.1 = Anchor.EAST ∨ p.2 = Anchor.EAST ∨
        p.1 = Anchor.WEST ∨ p.2 = Anchor.WEST) →
       ((ConnectorCell.render s c).2).2 = 2 * s.vCellPadding) ∧
    (¬ (∃ p ∈ c.connections,
          p.1 = Anchor.EAST ∨ p.2 = Anchor.EAST ∨
          p.1 = Anchor.WEST ∨ p.2 = Anchor.WEST) →
       ((ConnectorCell.render s c).2).2 = 0) := by
  have hz : (0 : ℚ) ≤ c.hShift * 2 * s.openGroupHSpacer :=
    mul_nonneg (mul_nonneg hsh (by norm_num)) hog
  have hpos :
      0 < s.mainLine + s.hCellPadding + c.hShift * 2 * s.openGroupHSpacer := by
    linarith
  have hvp2 : 0 < 2 * s.vCellPadding := by linarith
  simp only [← hasVertical_iff, ← hasHorizontal_iff]
  cases hv : c.hasVertical <;> cases hh : c.hasHorizontal <;>
    simp [ConnectorCell.render, hv, hh, hpos, hvp2]

/-- C1 witness: the hypotheses and conclusion of
`connector_render_reservation` at the sample settings and a concrete
(NORTH, SOUTH) connector. -/
theorem connector_render_reservation_witness :
    ((ConnectorCell.render sampleSettings sampleConnector).2).1 =
      sampleSettings.mainLine + sampleSettings.hCellPadding +
        sampleConnector.hShift * 2 * sampleSettings.openGroupHSpacer :=
  (connector_render_reservation sampleSettings sampleConnector
      (by norm_num [sampleSettings]) (by norm_num [sampleSettings])
      (by norm_num [sampleConnector]) (by norm_num [sampleSettings])
      (by norm_num [sampleSettings])).2.1
    ⟨(Anchor.NORTH, Anchor.SOUTH), by simp [sampleConnector]⟩

/-- C7: a connection pair is angled exactly when one endpoint is
NORTH/SOUTH and the other WEST/EAST — in particular (NORTH, EAST) is
angled while (NORTH, SOUTH) and (WEST, EAST) are not — and `draw` emits
an angled pair as two segments through the CENTER anchor and a non-angled
pair as a single segment. -/
theorem connector_angled_spec :
    (∀ a b : Anchor,
       ConnectorCell.angled a b = true ↔
         (((a = Anchor.NORTH ∨ a = Anchor.SOUTH) ∧
           (b = Anchor.WEST ∨ b = Anchor.EAST)) ∨
          ((b = Anchor.NORTH ∨ b = Anchor.SOUTH) ∧
           (a = Anchor.WEST ∨ a = Anchor.EAST)))) ∧
    ConnectorCell.angled Anchor.NORTH Anchor.EAST = true ∧
    ConnectorCell.angled Anchor.NORTH Anchor.SOUTH = false ∧
    ConnectorCell.angled Anchor.WEST Anchor.EAST = false ∧
    (∀ (s : Settings) (c : ConnectorCell) (a b : Anchor),
       c.connections = [(a, b)] →
       (ConnectorCell.angled a b = true →
          ConnectorCell.drawSegments s c =
            [⟨c.getXY s a, c.getXY s Anchor.CENTER⟩,
             ⟨c.getXY s Anchor.CENTER, c.getXY s b⟩]) ∧
       (ConnectorCell.angled a b = false →
          ConnectorCell.drawSegments s c = [⟨c.getXY s a, c.getXY s b⟩])) := by
  refine ⟨fun a b => by cases a <;> cases b <;> decide,
          by decide, by decide, by decide, ?_⟩
  intro s c a b hconn
  constructor <;> intro hang <;>
    simp [ConnectorCell.drawSegments, hconn, hang]

/-- C7 witness: `connector_angled_spec` applied to a concrete connector
with the single angled pair (NORTH, EAST). -/
theorem connector_angled_spec_witness :
    ConnectorCell.drawSegments sampleSettings sampleAngledConnector =
      [⟨ConnectorCell.getXY sampleSettings sampleAngledConnector Anchor.NORTH,
        ConnectorCell.getXY sampleSettings sampleAngledConnector
          Anchor.CENTER⟩,
       ⟨ConnectorCell.getXY sampleSettings sampleAngledConnector
          Anchor.CENTER,
        ConnectorCell.getXY sampleSettings sampleAngledConnector
          Anchor.EAST⟩] :=
  (connector_angled_spec.2.2.2.2 sampleSettings sampleAngledConnector
      Anchor.NORTH Anchor.EAST rfl).1 (by decide)

/-- C8: for a GENERIC connector whose connections are exactly
[(NORTH, SOUTH)], the X coordinate resolved for NORTH equals the X
coordinate resolved for SOUTH. -/
theorem connector_vertical_anchor_symmetry (s : Settings)
    (c : ConnectorCell)
    (hconn : c.connections = [(Anchor.NORTH, Anchor.SOUTH)])
    (hsub : c.subKind = ConnSubKind.GENERIC) :
    (c.getXY s Anchor.NORTH).1 = (c.getXY s Anchor.SOUTH).1 := by
  simp [ConnectorCell.getXY, hsub]

/-- C8 witness: `connector_vertical_anchor_symmetry` at the sample
settings and the concrete (NORTH, SOUTH) connector. -/
theorem connector_vertical_anchor_symmetry_witness :
    (sampleConnector.getXY sampleSettings Anchor.NORTH).1 =
      (sampleConnector.getXY sampleSettings Anchor.SOUTH).1 :=
  connector_vertical_anchor_symmetry sampleSettings sampleConnector rfl rfl

/-- C2: for a Class DECLARATION cell whose badge is wider than the header
text, `renderCell` sets `minWidth` to the badge width plus the header
padding (plus the side-comment adjustment), not the smaller text width,
floored at the global minimum-width setting; the result does not change
if the header text is replaced by any other text no wider than the
badge. -/
theorem class_decl_badge_widens (s : Settings) (st : ScopeCellState)
    (b : BadgeItem)
    (hsub : st.subKind = ScopeSubKind.DECLARATION)
    (hkind : st.kind = ScopeKind.CLASS_SCOPE)
    (hb : st.neighborBadge = some b)
    (hbk : b.scopeKind = ScopeKind.CLASS_SCOPE)
    (hwide : s.monoTextWidth st.headerText < b.width) :
    ((scopeRenderCell s st).2).1 =
      max (b.width + s.hHeaderPadding - s.scopeRectRadius +
             declCommentWidthAdj s st.declInput) s.minWidth ∧
    (scopeRenderCell s st).1.minWidth =
      max (b.width + s.hHeaderPadding - s.scopeRectRadius +
             declCommentWidthAdj s st.declInput) s.minWidth ∧
    (∀ t : String, s.monoTextWidth t ≤ b.width →
       ((scopeRenderCell s { st with headerText := t }).2).1 =
         ((scopeRenderCell s st).2).1) := by
  have hwh : b.withinHeader = false := by
    simp [BadgeItem.withinHeader, hbk]
  refine ⟨?_, ?_, ?_⟩
  · simp [scopeRenderCell, hsub, renderDeclaration, ScopeCellState.declInput,
          hb, hwh, max_eq_right (le_of_lt hwide)]
  · simp [scopeRenderCell, hsub, renderDeclaration, ScopeCellState.declInput,
          hb, hwh, max_eq_right (le_of_lt hwide)]
  · intro t ht
    simp [scopeRenderCell, hsub, renderDeclaration, ScopeCellState.declInput,
          hb, hwh, max_eq_right (le_of_lt hwide), max_eq_right ht,
          declCommentWidthAdj]

/-- C2 witness: `class_decl_badge_widens` at the sample settings and the
concrete Class DECLARATION state (badge width 34, text width 21). -/
theorem class_decl_badge_widens_witness :
    ((scopeRenderCell sampleSettings sampleClassDeclState).2).1 =
      max (sampleClassBadge.width + sampleSettings.hHeaderPadding -
             sampleSettings.scopeRectRadius +
             declCommentWidthAdj sampleSettings
               sampleClassDeclState.declInput)
        sampleSettings.minWidth :=
  (class_decl_badge_widens sampleSettings sampleClassDeclState
      sampleClassBadge rfl rfl rfl rfl
      (by norm_num [sampleSettings, sampleClassBadge, mkBadgeItem,
                    sampleClassDeclState,
                    show ("Foo").length = 3 from rfl,
                    show ("class").length = 5 from rfl])).1

/-- C10: when the badge reports `withinHeader` — exactly for
ELSE/FINALLY/TRY scopes and EXCEPT scopes with an absent clause —
`__renderDeclaration` derives the width from the badge width alone
(badge width + hHeaderPadding - scopeRectRadius, before the side-comment
adjustment and the minimum-width floor), ignoring the header text
entirely. -/
theorem within_header_badge_drives_width (s : Settings) (d : DeclInput)
    (b : BadgeItem) (hb : d.badgeItem = some b)
    (hwh : b.withinHeader = true) :
    (renderDeclaration s d).1 =
      max (b.width + s.hHeaderPadding - s.scopeRectRadius +
             declCommentWidthAdj s d) s.minWidth ∧
    (∀ t : String,
       (renderDeclaration s { d with headerText := t }).1 =
         (renderDeclaration s d).1) ∧
    (∀ b2 : BadgeItem, b2.withinHeader = true ↔
       (b2.scopeKind = ScopeKind.ELSE_SCOPE ∨
        b2.scopeKind = ScopeKind.FINALLY_SCOPE ∨
        b2.scopeKind = ScopeKind.TRY_SCOPE ∨
        (b2.scopeKind = ScopeKind.EXCEPT_SCOPE ∧
         b2.exceptClauseAbsent = true))) := by
  refine ⟨?_, ?_, ?_⟩
  · simp [renderDeclaration, hb, hwh]
  · intro t
    simp [renderDeclaration, hb, hwh, declCommentWidthAdj]
  · intro b2
    obtain ⟨k, ca, txt, w, h⟩ := b2
    cases k <;> simp [BadgeItem.withinHeader]

/-- C10 witness: `within_header_badge_drives_width` at the sample
settings and the concrete Else DECLARATION input. -/
theorem within_header_badge_drives_width_witness :
    (renderDeclaration sampleSettings sampleElseDecl).1 =
      max (sampleElseBadge.width + sampleSettings.hHeaderPadding -
             sampleSettings.scopeRectRadius +
             declCommentWidthAdj sampleSettings sampleElseDecl)
        sampleSettings.minWidth :=
  (within_header_badge_drives_width sampleSettings sampleElseDecl
      sampleElseBadge rfl rfl).1

/-- C3: for a COMMENT cell with `hidecomments` enabled and a side comment
spanning lines 10 to 12, `renderCell` sizes the cell with the hidden
text-padding profile applied to the `hiddenCommentText` placeholder, the
cached text equals the placeholder, the full comment moves into the
tooltip, `getLineRange` still reports [10, 12], and the hidden profile
yields strictly smaller sizes than the shown profile on any text. -/
theorem hidden_comment_cell_spec (s : Settings) (st : ScopeCellState)
    (hhide : s.hidecomments = true)
    (hsub : st.subKind = ScopeSubKind.COMMENT)
    (hcache : st.cachedSideComment = none)
    (hbl : st.sideCommentSrc.fragment.beginLine = 10)
    (hel : st.sideCommentSrc.fragment.endLine = 12)
    (hhp : s.hHiddenTextPadding < s.hTextPadding)
    (hvp : s.vHiddenTextPadding < s.vTextPadding) :
    ((scopeRenderCell s st).2) =
      (s.hCellPadding + s.hHiddenTextPadding +
         s.monoTextWidth s.hiddenCommentText + s.hHiddenTextPadding +
         s.hHeaderPadding - s.scopeRectRadius,
       s.monoTextHeight s.hiddenCommentText +
         2 * (s.vHeaderPadding + s.vHiddenTextPadding) -
         s.scopeRectRadius) ∧
    (scopeRenderCell s st).1.cachedSideComment =
      some s.hiddenCommentText ∧
    (scopeRenderCell s st).1.toolTip =
      some (commentToolTip st.sideCommentSrc.fragment.displayValue) ∧
    (∀ dr br : List Int, functionScopeGetLineRange st dr br = [10, 12]) ∧
    (∀ t : String,
       (renderComment s t).1 <
         (renderComment { s with hidecomments := false } t).1 ∧
       (renderComment s t).2 <
         (renderComment { s with hidecomments := false } t).2) := by
  refine ⟨?_, ?_, ?_, ?_, ?_⟩
  · simp [scopeRenderCell, hsub, hcache, computeSideCommentText, hhide,
          renderComment]
  · simp [scopeRenderCell, hsub, hcache, computeSideCommentText, hhide]
  · simp [scopeRenderCell, hsub, hcache, hhide]
  · intro dr br
    simp [functionScopeGetLineRange, hsub, Fragment.getLineRange, hbl, hel]
  · intro t
    constructor <;> simp [renderComment, hhide] <;> linarith

/-- C3 witness: `hidden_comment_cell_spec` at the sample settings
(hidecomments on, hidden paddings 3 < shown paddings 8) and the concrete
function COMMENT state with a side comment on lines 10-12. -/
theorem hidden_comment_cell_spec_witness :
    (scopeRenderCell sampleSettings sampleCommentState).1.cachedSideComment =
      some sampleSettings.hiddenCommentText :=
  (hidden_comment_cell_spec sampleSettings sampleCommentState rfl rfl rfl
      rfl rfl (by norm_num [sampleSettings])
      (by norm_num [sampleSettings])).2.1

/-- `__needConnector` holds exactly for the always-connector scope kinds
and for an else scope bound to a try statement. -/
theorem needConnector_iff (c : TopLeftCell) :
    needConnector c = true ↔
      (c.kind = ScopeKind.FOR_SCOPE ∨ c.kind = ScopeKind.DECOR_SCOPE ∨
       c.kind = ScopeKind.WHILE_SCOPE ∨ c.kind = ScopeKind.FUNC_SCOPE ∨
       c.kind = ScopeKind.CLASS_SCOPE ∨ c.kind = ScopeKind.WITH_SCOPE ∨
       c.kind = ScopeKind.FINALLY_SCOPE ∨ c.kind = ScopeKind.TRY_SCOPE ∨
       (c.kind = ScopeKind.ELSE_SCOPE ∧
        c.statement = ElseStatement.TRY_STATEMENT)) := by
  obtain ⟨k, stmt, ln, htn, tnc⟩ := c
  cases k <;> simp [needConnector]

/-- A full-height vertical connector appears in the TOP_LEFT draw output
exactly when `__needConnector` holds. -/
theorem vertical_mem_iff (s : Settings) (c : TopLeftCell)
    (baseX baseY canvasHeight : ℚ) :
    (∃ e ∈ topLeftDrawConnectors s c baseX baseY canvasHeight,
       e.role = ConnRole.vertical) ↔ needConnector c = true := by
  cases hnc : needConnector c <;> cases hth : needTopHalfConnector c <;>
    by_cases hk : (c.kind = ScopeKind.EXCEPT_SCOPE ∨
        (c.kind = ScopeKind.ELSE_SCOPE ∧ followLoop c = true)) <;>
      cases hln : c.leftNeighbor <;>
        simp [topLeftDrawConnectors, hnc, hth, hk, hln]

/-- C4: an Else TOP_LEFT cell not bound to a try statement, whose left
neighbour is a nested canvas holding a For or While scope, creates the
dotted horizontal connector from the neighbour's right edge to its own
left edge and creates no full-height vertical connector; a vertical
connector is created exactly for the
for/while/decorator/function/class/with/finally/try kinds and for an
else bound to a try statement. -/
theorem loop_else_horizontal_connector (s : Settings) (c : TopLeftCell)
    (ln : LeftNeighbor) (baseX baseY canvasHeight : ℚ)
    (hkind : c.kind = ScopeKind.ELSE_SCOPE)
    (hst : c.statement ≠ ElseStatement.TRY_STATEMENT)
    (hln : c.leftNeighbor = some ln)
    (hvc : ln.isVCanvas = true)
    (hik : ln.innerTopLeftKind = some ScopeKind.FOR_SCOPE ∨
           ln.innerTopLeftKind = some ScopeKind.WHILE_SCOPE) :
    ({ role := ConnRole.horizontal, dotted := true,
       x1 := ln.baseX + ln.minWidth - s.hCellPadding + s.boxLineWidth,
       y1 := baseY + 2 * s.vCellPadding,
       x2 := baseX + s.hCellPadding - s.boxLineWidth,
       y2 := baseY + 2 * s.vCellPadding } : DrawnConn) ∈
      topLeftDrawConnectors s c baseX baseY canvasHeight ∧
    (∀ e ∈ topLeftDrawConnectors s c baseX baseY canvasHeight,
       e.role ≠ ConnRole.vertical) ∧
    (∀ c2 : TopLeftCell,
       (∃ e ∈ topLeftDrawConnectors s c2 baseX baseY canvasHeight,
          e.role = ConnRole.vertical) ↔
         (c2.kind = ScopeKind.FOR_SCOPE ∨
          c2.kind = ScopeKind.DECOR_SCOPE ∨
          c2.kind = ScopeKind.WHILE_SCOPE ∨
          c2.kind = ScopeKind.FUNC_SCOPE ∨
          c2.kind = ScopeKind.CLASS_SCOPE ∨
          c2.kind = ScopeKind.WITH_SCOPE ∨
          c2.kind = ScopeKind.FINALLY_SCOPE ∨
          c2.kind = ScopeKind.TRY_SCOPE ∨
          (c2.kind = ScopeKind.ELSE_SCOPE ∧
           c2.statement = ElseStatement.TRY_STATEMENT))) := by
  have hnc : needConnector c = false := by
    simp [needConnector, hkind, hst]
  have hfl : followLoop c = true := by
    rcases hik with h | h <;> simp [followLoop, hln, hvc, h]
  refine ⟨?_, ?_, ?_⟩
  · cases hth : needTopHalfConnector c <;>
      simp [topLeftDrawConnectors, hnc, hth, hkind, hfl, hln]
  · intro e he hrole
    have hv : (∃ e ∈ topLeftDrawConnectors s c baseX baseY canvasHeight,
        e.role = ConnRole.vertical) := ⟨e, he, hrole⟩
    rw [vertical_mem_iff] at hv
    simp [hnc] at hv
  · intro c2
    exact (vertical_mem_iff s c2 baseX baseY canvasHeight).trans
      (needConnector_iff c2)

/-- C4 witness: `loop_else_horizontal_connector` at the sample settings
and the concrete For-bound Else cell with a For-holding left
neighbour. -/
theorem loop_else_horizontal_connector_witness :
    ({ role := ConnRole.horizontal, dotted := true,
       x1 := sampleLeftNeighbor.baseX + sampleLeftNeighbor.minWidth -
               sampleSettings.hCellPadding + sampleSettings.boxLineWidth,
       y1 := (0 : ℚ) + 2 * sampleSettings.vCellPadding,
       x2 := (200 : ℚ) + sampleSettings.hCellPadding -
               sampleSettings.boxLineWidth,
       y2 := (0 : ℚ) + 2 * sampleSettings.vCellPadding } : DrawnConn) ∈
      topLeftDrawConnectors sampleSettings sampleElseCell 200 0 300 :=
  (loop_else_horizontal_connector sampleSettings sampleElseCell
      sampleLeftNeighbor 200 0 300 rfl (by decide) rfl rfl
      (Or.inl rfl)).1

/-- C5 counterexample: drawing a spacer cell that was never rendered
(all size fields still unset) does not fail — it returns a normal state
with only the base position recorded, so no "LayoutError: not rendered"
is raised. -/
theorem draw_before_render_not_failing :
    SpacerCell.draw
        { width := none, height := none, minWidth := none,
          minHeight := none, baseX := none, baseY := none } 5 7 =
      Except.ok
        { width := none, height := none, minWidth := none,
          minHeight := none, baseX := some 5, baseY := some 7 } := rfl

/-- C5 amended: calling `draw` before `render` does not fail fast;
`SpacerCell.draw` and `ConnectorCell.draw` record the base position and
proceed silently, leaving the (possibly still undefined) sizes
untouched. -/
theorem draw_records_position_silently :
    (∀ (st : SpacerState) (x y : ℚ),
       SpacerCell.draw st x y =
         Except.ok { st with baseX := some x, baseY := some y }) ∧
    (∀ (s : Settings) (c : ConnectorCell) (x y : ℚ),
       ∃ r, ConnectorCell.draw s c x y = Except.ok r ∧
         r.1.baseX = x ∧ r.1.baseY = y ∧ r.1.minWidth = c.minWidth) :=
  ⟨fun _ _ _ => rfl, fun _ _ _ _ => ⟨_, rfl, rfl, rfl, rfl⟩⟩

/-- C6: `render` is idempotent for spacer cells, connector cells and
every scope sub-kind: a second call on the unchanged cell returns the
same `(width, height)` pair and leaves the whole cell state (and hence
the grid) unchanged. -/
theorem render_idempotent :
    (∀ (s : Settings) (st : SpacerState),
       SpacerCell.render s (SpacerCell.render s st).1 =
         SpacerCell.render s st) ∧
    (∀ (s : Settings) (c : ConnectorCell),
       ConnectorCell.render s (ConnectorCell.render s c).1 =
         ConnectorCell.render s c) ∧
    (∀ (s : Settings) (st : ScopeCellState),
       scopeRender s (scopeRender s st).1 = scopeRender s st) := by
  refine ⟨?_, ?_, ?_⟩
  · intro s st
    obtain ⟨w, h, mw, mh, bx, byy⟩ := st
    cases w <;> cases h <;> rfl
  · intro s c
    obtain ⟨conns, sk, hs, bx, byy, w, h, mw, mh, lc, ca, cb⟩ := c
    rfl
  · intro s st
    obtain ⟨k, sk, eca, bi, nb, ht, hsa, scne, scs, csc, dv, cdt,
            db, tt, mw, mh, w, h⟩ := st
    cases sk
    case TOP_LEFT => rfl
    case DECLARATION => rfl
    case COMMENT => cases csc <;> rfl
    case DOCSTRING =>
      cases hd : s.hidedocstrings <;> cases cdt <;>
        simp [scopeRender, scopeRenderCell, getDocstringText, hd]

/-- C9: `getTopLeftItem` on a DECLARATION sub-kind returns the canvas
cell at grid address (column - 1, row - 1); on any other sub-kind it
raises (returns an error) instead of guessing a value. -/
theorem getTopLeftItem_spec (cells : List (List Nat)) (column row : Nat)
    (subKind : ScopeSubKind) (r : List Nat) (c : Nat)
    (hr : cells.get? (row - 1) = some r)
    (hc : r.get? (column - 1) = some c) :
    (subKind = ScopeSubKind.DECLARATION →
       getTopLeftItem cells column row subKind = Except.ok c) ∧
    (subKind ≠ ScopeSubKind.DECLARATION →
       ∃ msg, getTopLeftItem cells column row subKind =
         Except.error msg) := by
  rw [List.get?_eq_getElem?] at hr hc
  constructor
  · intro hd
    simp [getTopLeftItem, hd, hr, hc]
  · intro hd
    refine ⟨"Logical error: the getTopLeftItem() is designed " ++
            "to be called for the DECLARATION only", ?_⟩
    simp [getTopLeftItem, hd]

/-- C9 witness: `getTopLeftItem_spec` on the concrete 2x2 grid
[[1, 2], [3, 4]] at address (1, 1) with sub-kind DECLARATION returns the
cell at (0, 0). -/
theorem getTopLeftItem_spec_witness :
    getTopLeftItem [[1, 2], [3, 4]] 1 1 ScopeSubKind.DECLARATION =
      Except.ok 1 :=
  (getTopLeftItem_spec [[1, 2], [3, 4]] 1 1 ScopeSubKind.DECLARATION
      [1, 2] 1 rfl rfl).1 rfl

end Codimension
